import Mathlib

/-!
Shallow embedding of the vec2 2D-vector library.

The source module exports pure functions over `Vec2 = [number, number]`.
Scalars are modelled as real numbers. Binary operations in the source are
wrapped in `curry` imported from `lodash.curryright`: full two-argument
application applies the arguments in their written order, while supplying a
single argument binds it as the RIGHTMOST parameter and returns a function
awaiting the remaining (left) parameter. `curry2 f` below models that
single-argument application shape. The three assertion-guarded operations
(`unit`, `angle`, `project`) are modelled with `Except VecError`, where
`VecError.InvalidArgument` stands for the `assert.notDeepEqual` failure.
-/

noncomputable section

namespace V2

/-- Scalar value (source: `type Scalar = number`), modelled as a real. -/
abbrev Scalar : Type := ℝ

/-- 2D vector (source: `type Vec2 = [Scalar, Scalar]`). -/
abbrev Vec2 : Type := Scalar × Scalar

/-- The single error kind: a precondition (assertion) violation. -/
inductive VecError : Type
  | InvalidArgument

/-- Models the one-argument application of a function wrapped by
`lodash.curryright`: the supplied argument is bound as the rightmost
(second) parameter, and the returned continuation awaits the first. -/
def curry2 {α β γ : Type} (f : α → β → γ) : β → α → γ :=
  fun b a => f a b

/-- Source: `zero = (): Vec2 => [0, 0]`. -/
def zero : Vec2 := (0, 0)

/-- Source: `negate = (a) => [-a[0], -a[1]]`. -/
def negate (a : Vec2) : Vec2 := (-a.1, -a.2)

/-- Source: `add = curry((a, b) => [a[0] + b[0], a[1] + b[1]])`. -/
def add (a b : Vec2) : Vec2 := (a.1 + b.1, a.2 + b.2)

/-- Source: `sub = curry((a, b) => [a[0] - b[0], a[1] - b[1]])`. -/
def sub (a b : Vec2) : Vec2 := (a.1 - b.1, a.2 - b.2)

/-- Source: `scale = curry((a, b) => [a[0] * b, a[1] * b])`. -/
def scale (a : Vec2) (b : Scalar) : Vec2 := (a.1 * b, a.2 * b)

/-- Source: `dot = curry((a, b) => a[0] * b[0] + a[1] * b[1])`. -/
def dot (a b : Vec2) : Scalar := a.1 * b.1 + a.2 * b.2

/-- Source: `length = (a) => Math.sqrt(dot(a, a))`. -/
def length (a : Vec2) : Scalar := Real.sqrt (dot a a)

/-- Source: `magnitude = length`. -/
def magnitude : Vec2 → Scalar := length

/-- Source: `norm = length`. -/
def norm : Vec2 → Scalar := length

/-- Source: `unit = (a) => { assert.notDeepEqual(a, [0, 0]);
return scale(a, 1 / length(a)) }`. -/
def unit (a : Vec2) : Except VecError Vec2 :=
  if a = ((0 : Scalar), (0 : Scalar)) then Except.error VecError.InvalidArgument
  else Except.ok (scale a (1 / length a))

/-- Source: `normal = (a) => unit([a[1], -a[0]])`. -/
def normal (a : Vec2) : Except VecError Vec2 := unit (a.2, -a.1)

/-- Source: `distance = curry((a, b) => length(sub(a, b)))`. -/
def distance (a b : Vec2) : Scalar := length (sub a b)

/-- Source: `angle = curry((a, b) => { assert.notDeepEqual(a, [0, 0]);
assert.notDeepEqual(b, [0, 0]);
return Math.acos(dot(a, b) / (length(a) * length(b))) })`. -/
def angle (a b : Vec2) : Except VecError Scalar :=
  if a = ((0 : Scalar), (0 : Scalar)) then Except.error VecError.InvalidArgument
  else if b = ((0 : Scalar), (0 : Scalar)) then Except.error VecError.InvalidArgument
  else Except.ok (Real.arccos (dot a b / (length a * length b)))

/-- Source: `rotate = curry((a, angle) => { const c = Math.cos(angle);
const s = Math.sin(angle);
return [a[0] * c - a[1] * s, a[0] * s + a[1] * c] })`. -/
def rotate (a : Vec2) (angle : Scalar) : Vec2 :=
  (a.1 * Real.cos angle - a.2 * Real.sin angle,
   a.1 * Real.sin angle + a.2 * Real.cos angle)

/-- Source: `fromPolar = ([angle, length]) => rotate([length, 0], angle)`. -/
def fromPolar (p : Vec2) : Vec2 := rotate (p.2, 0) p.1

/-- Source: `toPolar = (a) => [angle(a), length(a)]`. Note the source
applies the curried `angle` to a SINGLE argument, so the first component of
the result is not a scalar but the partially-applied function
`curry2 angle a` (which awaits the other vector and binds `a` as the
second argument of `angle`). -/
def toPolar (a : Vec2) : (Vec2 → Except VecError Scalar) × Scalar :=
  (curry2 angle a, length a)

/-- Source: `project = curry((a, b) => { assert.notDeepEqual(b, [0, 0]);
return scale(b, dot(a, b) / dot(b, b)) })`. -/
def project (a b : Vec2) : Except VecError Vec2 :=
  if b = ((0 : Scalar), (0 : Scalar)) then Except.error VecError.InvalidArgument
  else Except.ok (scale b (dot a b / dot b b))

lemma dot_self_nonneg (v : Vec2) : 0 ≤ dot v v := by
  simp only [dot]
  nlinarith [mul_self_nonneg v.1, mul_self_nonneg v.2]

lemma dot_self_eq_zero_iff (v : Vec2) : dot v v = 0 ↔ v = ((0 : Scalar), (0 : Scalar)) := by
  constructor
  · intro h
    simp only [dot] at h
    have h1 : v.1 = 0 := by nlinarith [mul_self_nonneg v.1, mul_self_nonneg v.2]
    have h2 : v.2 = 0 := by nlinarith [mul_self_nonneg v.1, mul_self_nonneg v.2]
    exact Prod.ext h1 h2
  · intro h
    rw [h]
    simp [dot]

lemma dot_self_pos (v : Vec2) (h : v ≠ ((0 : Scalar), (0 : Scalar))) : 0 < dot v v :=
  lt_of_le_of_ne (dot_self_nonneg v) fun h0 => h ((dot_self_eq_zero_iff v).mp h0.symm)

lemma length_nonneg (v : Vec2) : 0 ≤ length v := Real.sqrt_nonneg _

lemma length_eq_zero_iff (v : Vec2) : length v = 0 ↔ v = ((0 : Scalar), (0 : Scalar)) := by
  rw [length, Real.sqrt_eq_zero (dot_self_nonneg v), dot_self_eq_zero_iff]

lemma length_pos (v : Vec2) (h : v ≠ ((0 : Scalar), (0 : Scalar))) : 0 < length v :=
  lt_of_le_of_ne (length_nonneg v) fun h0 => h ((length_eq_zero_iff v).mp h0.symm)

lemma length_scale (v : Vec2) (s : Scalar) : length (scale v s) = |s| * length v := by
  have key : dot (scale v s) (scale v s) = s ^ 2 * dot v v := by
    simp only [dot, scale]
    ring
  rw [length, key, Real.sqrt_mul (sq_nonneg s), Real.sqrt_sq_eq_abs, length]

lemma length_scale_inv (v : Vec2) (h : v ≠ ((0 : Scalar), (0 : Scalar))) :
    length (scale v (1 / length v)) = 1 := by
  have hl : 0 < length v := length_pos v h
  rw [length_scale, abs_of_pos (by positivity), one_div, inv_mul_cancel₀ (ne_of_gt hl)]

lemma dot_scale_left (v w : Vec2) (s : Scalar) : dot (scale v s) w = s * dot v w := by
  simp only [dot, scale]
  ring

lemma dot_sq_le_dot_mul_dot (a b : Vec2) : dot a b * dot a b ≤ dot a a * dot b b := by
  simp only [dot]
  nlinarith [sq_nonneg (a.1 * b.2 - a.2 * b.1)]

lemma abs_dot_le_length_mul (a b : Vec2) : |dot a b| ≤ length a * length b := by
  rw [length, length, ← Real.sqrt_mul (dot_self_nonneg a), ← Real.sqrt_mul_self_eq_abs]
  exact Real.sqrt_le_sqrt (dot_sq_le_dot_mul_dot a b)

/-- C1 counterexample: partially applying `sub` with `(1,2)` and then
supplying `(3,4)` does NOT compute `sub((1,2),(3,4)) = (-2,-2)`; by the
`curryright` convention it computes `(3,4) - (1,2) = (2,2)`. -/
theorem sub_curried_first_arg_counterexample :
    curry2 sub ((1 : Scalar), (2 : Scalar)) ((3 : Scalar), (4 : Scalar)) ≠
      sub ((1 : Scalar), (2 : Scalar)) ((3 : Scalar), (4 : Scalar)) := by
  simp only [curry2, sub, ne_eq, Prod.mk.injEq, not_and]
  norm_num

/-- C1 (amended): supplying a single argument to any curried binary
operation binds it as the rightmost (second) parameter: the returned
continuation applies its own argument in first position. In particular
`sub(a)(b) = sub(b, a) = b - a`. -/
theorem curried_binds_rightmost (a b : Vec2) (s θ : Scalar) :
    curry2 add a b = add b a ∧
    curry2 sub a b = sub b a ∧
    curry2 sub a b = (b.1 - a.1, b.2 - a.2) ∧
    curry2 scale s a = scale a s ∧
    curry2 dot a b = dot b a ∧
    curry2 distance a b = distance b a ∧
    curry2 angle a b = angle b a ∧
    curry2 rotate θ a = rotate a θ ∧
    curry2 project a b = project b a :=
  ⟨rfl, rfl, rfl, rfl, rfl, rfl, rfl, rfl, rfl⟩

/-- C10: single-argument application of a curried binary operation binds
the supplied value as the rightmost (second) argument:
`scale(s)(v) = scale(v, s)` and `rotate(θ)(v) = rotate(v, θ)`. -/
theorem curried_single_arg_is_second (v : Vec2) (s θ : Scalar) :
    curry2 scale s v = scale v s ∧ curry2 rotate θ v = rotate v θ :=
  ⟨rfl, rfl⟩

/-- C4: `length(v)` is the Euclidean norm `sqrt(dot(v, v))`, it is
non-negative, it vanishes exactly on the zero vector, and `magnitude`
and `norm` are the same function as `length`. -/
theorem length_spec :
    (∀ v : Vec2, length v = Real.sqrt (dot v v)) ∧
    (∀ v : Vec2, 0 ≤ length v) ∧
    (∀ v : Vec2, length v = 0 ↔ v = ((0 : Scalar), (0 : Scalar))) ∧
    magnitude = length ∧ norm = length :=
  ⟨fun _ => rfl, length_nonneg, length_eq_zero_iff, rfl, rfl⟩

/-- C7: `rotate` applies the standard 2D rotation matrix, preserves
length, and maps the zero vector to the zero vector for every angle. -/
theorem rotate_spec (v : Vec2) (θ : Scalar) :
    rotate v θ = (v.1 * Real.cos θ - v.2 * Real.sin θ,
                  v.1 * Real.sin θ + v.2 * Real.cos θ) ∧
    length (rotate v θ) = length v ∧
    rotate ((0 : Scalar), (0 : Scalar)) θ = ((0 : Scalar), (0 : Scalar)) := by
  refine ⟨rfl, ?_, ?_⟩
  · have key : dot (rotate v θ) (rotate v θ) = dot v v := by
      simp only [dot, rotate]
      linear_combination (v.1 * v.1 + v.2 * v.2) * Real.sin_sq_add_cos_sq θ
    rw [length, key, length]
  · simp [rotate]

/-- C3 counterexample: `normal` is a fourth operation that can fail —
`normal((0,0))` raises `InvalidArgument` (through its internal call to
`unit`), refuting that every operation other than `unit`, `angle` and
`project` returns a value on all real inputs. -/
theorem normal_zero_raises :
    normal ((0 : Scalar), (0 : Scalar)) = Except.error VecError.InvalidArgument := by
  simp [normal, unit]

/-- C3 (amended): four operations can fail — `unit`, `angle`, `project`,
and `normal` (which inherits `unit`'s precondition through its internal
call) — and each raises `InvalidArgument` exactly when its zero-vector
divisor precondition is violated. -/
theorem fallible_ops_characterization :
    (∀ v : Vec2, unit v = Except.error VecError.InvalidArgument ↔
      v = ((0 : Scalar), (0 : Scalar))) ∧
    (∀ a b : Vec2, angle a b = Except.error VecError.InvalidArgument ↔
      (a = ((0 : Scalar), (0 : Scalar)) ∨ b = ((0 : Scalar), (0 : Scalar)))) ∧
    (∀ a b : Vec2, project a b = Except.error VecError.InvalidArgument ↔
      b = ((0 : Scalar), (0 : Scalar))) ∧
    (∀ v : Vec2, normal v = Except.error VecError.InvalidArgument ↔
      v = ((0 : Scalar), (0 : Scalar))) := by
  refine ⟨?_, ?_, ?_, ?_⟩
  · intro v
    by_cases hv : v = ((0 : Scalar), (0 : Scalar)) <;> simp [unit, hv]
  · intro a b
    by_cases ha : a = ((0 : Scalar), (0 : Scalar))
    · rw [angle, if_pos ha]
      exact iff_of_true rfl (Or.inl ha)
    · by_cases hb : b = ((0 : Scalar), (0 : Scalar))
      · rw [angle, if_neg ha, if_pos hb]
        exact iff_of_true rfl (Or.inr hb)
      · rw [angle, if_neg ha, if_neg hb]
        exact iff_of_false (fun h => Except.noConfusion h) (not_or.mpr ⟨ha, hb⟩)
  · intro a b
    by_cases hb : b = ((0 : Scalar), (0 : Scalar)) <;> simp [project, hb]
  · intro v
    by_cases hv : v = ((0 : Scalar), (0 : Scalar))
    · rw [hv]
      simp [normal, unit]
    · have hne : ((v.2, -v.1) : Vec2) ≠ ((0 : Scalar), (0 : Scalar)) := by
        intro hc
        apply hv
        rw [Prod.ext_iff] at hc ⊢
        simp only at hc
        exact ⟨by simpa using hc.2, hc.1⟩
      rw [normal, unit, if_neg hne]
      exact iff_of_false (fun h => Except.noConfusion h) hv

/-- C6: for every non-zero vector `v`, `unit(v)` succeeds with
`scale(v, 1/length(v))`, and the returned vector has length exactly 1
(the real-number idealization of `length(unit(v)) ≈ 1`). -/
theorem unit_spec (v : Vec2) (h : v ≠ ((0 : Scalar), (0 : Scalar))) :
    unit v = Except.ok (scale v (1 / length v)) ∧
    ∀ w, unit v = Except.ok w → length w = 1 := by
  refine ⟨by rw [unit, if_neg h], ?_⟩
  intro w hw
  rw [unit, if_neg h] at hw
  injection hw with hw'
  rw [← hw']
  exact length_scale_inv v h

/-- C6 witness: the theorem instantiated at `v = (3,4)`. -/
theorem unit_spec_witness :
    ((3 : Scalar), (4 : Scalar)) ≠ ((0 : Scalar), (0 : Scalar)) ∧
    (unit ((3 : Scalar), (4 : Scalar)) =
      Except.ok (scale ((3 : Scalar), (4 : Scalar))
        (1 / length ((3 : Scalar), (4 : Scalar)))) ∧
     ∀ w, unit ((3 : Scalar), (4 : Scalar)) = Except.ok w → length w = 1) := by
  have h : ((3 : Scalar), (4 : Scalar)) ≠ ((0 : Scalar), (0 : Scalar)) := by
    norm_num [Prod.ext_iff]
  exact ⟨h, unit_spec _ h⟩

/-- C8: for every non-zero vector `v`, `normal(v)` is `unit((v.y, -v.x))`,
and it succeeds with a vector perpendicular to `v` of length exactly 1. -/
theorem normal_spec (v : Vec2) (h : v ≠ ((0 : Scalar), (0 : Scalar))) :
    normal v = unit (v.2, -v.1) ∧
    ∃ w, normal v = Except.ok w ∧ dot v w = 0 ∧ length w = 1 := by
  have hne : ((v.2, -v.1) : Vec2) ≠ ((0 : Scalar), (0 : Scalar)) := by
    intro hc
    apply h
    rw [Prod.ext_iff] at hc ⊢
    simp only at hc
    exact ⟨by simpa using hc.2, hc.1⟩
  refine ⟨rfl, scale (v.2, -v.1) (1 / length (v.2, -v.1)), ?_, ?_, ?_⟩
  · rw [normal, unit, if_neg hne]
  · simp [dot, scale]
    ring
  · exact length_scale_inv _ hne

/-- C8 witness: the theorem instantiated at `v = (3,4)`. -/
theorem normal_spec_witness :
    ((3 : Scalar), (4 : Scalar)) ≠ ((0 : Scalar), (0 : Scalar)) ∧
    (normal ((3 : Scalar), (4 : Scalar)) = unit (4, -3) ∧
     ∃ w, normal ((3 : Scalar), (4 : Scalar)) = Except.ok w ∧
       dot ((3 : Scalar), (4 : Scalar)) w = 0 ∧ length w = 1) := by
  have h : ((3 : Scalar), (4 : Scalar)) ≠ ((0 : Scalar), (0 : Scalar)) := by
    norm_num [Prod.ext_iff]
  exact ⟨h, normal_spec _ h⟩

/-- C9: for every vector `a` and non-zero vector `b`, `project(a, b)`
succeeds with `scale(b, dot(a,b)/dot(b,b))`, and projection onto the same
`b` is idempotent (exactly, in the real-number idealization). -/
theorem project_spec (a b : Vec2) (hb : b ≠ ((0 : Scalar), (0 : Scalar))) :
    project a b = Except.ok (scale b (dot a b / dot b b)) ∧
    ∀ p, project a b = Except.ok p → project p b = Except.ok p := by
  have hbb : dot b b ≠ 0 := ne_of_gt (dot_self_pos b hb)
  refine ⟨by rw [project, if_neg hb], ?_⟩
  intro p hp
  rw [project, if_neg hb] at hp
  injection hp with hp'
  subst hp'
  rw [project, if_neg hb, dot_scale_left, mul_div_assoc, div_self hbb, mul_one]

/-- C9 witness: the theorem instantiated at `a = (1,0)`, `b = (1,1)`. -/
theorem project_spec_witness :
    ((1 : Scalar), (1 : Scalar)) ≠ ((0 : Scalar), (0 : Scalar)) ∧
    (project ((1 : Scalar), (0 : Scalar)) ((1 : Scalar), (1 : Scalar)) =
      Except.ok (scale ((1 : Scalar), (1 : Scalar))
        (dot ((1 : Scalar), (0 : Scalar)) ((1 : Scalar), (1 : Scalar)) /
         dot ((1 : Scalar), (1 : Scalar)) ((1 : Scalar), (1 : Scalar)))) ∧
     ∀ p, project ((1 : Scalar), (0 : Scalar)) ((1 : Scalar), (1 : Scalar)) =
       Except.ok p →
       project p ((1 : Scalar), (1 : Scalar)) = Except.ok p) := by
  have hb : ((1 : Scalar), (1 : Scalar)) ≠ ((0 : Scalar), (0 : Scalar)) := by
    norm_num [Prod.ext_iff]
  exact ⟨hb, project_spec _ _ hb⟩

/-- C5: for non-zero `a` and `b`, `angle(a, b)` succeeds with
`acos(dot(a,b) / (length(a)·length(b)))`; the cosine ratio lies in
`[-1, 1]` (Cauchy–Schwarz), and the resulting angle lies in `[0, π]`. -/
theorem angle_spec (a b : Vec2) (ha : a ≠ ((0 : Scalar), (0 : Scalar)))
    (hb : b ≠ ((0 : Scalar), (0 : Scalar))) :
    angle a b = Except.ok (Real.arccos (dot a b / (length a * length b))) ∧
    (-1 ≤ dot a b / (length a * length b) ∧
      dot a b / (length a * length b) ≤ 1) ∧
    ∀ θ, angle a b = Except.ok θ → 0 ≤ θ ∧ θ ≤ Real.pi := by
  have hL : 0 < length a * length b := mul_pos (length_pos a ha) (length_pos b hb)
  have hratio : |dot a b / (length a * length b)| ≤ 1 := by
    rw [abs_div, abs_of_pos hL]
    exact div_le_one_of_le₀ (abs_dot_le_length_mul a b) (le_of_lt hL)
  refine ⟨by rw [angle, if_neg ha, if_neg hb], abs_le.mp hratio, ?_⟩
  intro θ hθ
  rw [angle, if_neg ha, if_neg hb] at hθ
  injection hθ with hθ'
  rw [← hθ']
  exact ⟨Real.arccos_nonneg _, Real.arccos_le_pi _⟩

/-- C5 witness: the theorem instantiated at `a = (1,0)`, `b = (0,1)`. -/
theorem angle_spec_witness :
    ((1 : Scalar), (0 : Scalar)) ≠ ((0 : Scalar), (0 : Scalar)) ∧
    ((0 : Scalar), (1 : Scalar)) ≠ ((0 : Scalar), (0 : Scalar)) ∧
    (angle ((1 : Scalar), (0 : Scalar)) ((0 : Scalar), (1 : Scalar)) =
      Except.ok (Real.arccos
        (dot ((1 : Scalar), (0 : Scalar)) ((0 : Scalar), (1 : Scalar)) /
         (length ((1 : Scalar), (0 : Scalar)) *
          length ((0 : Scalar), (1 : Scalar))))) ∧
     (-1 ≤ dot ((1 : Scalar), (0 : Scalar)) ((0 : Scalar), (1 : Scalar)) /
        (length ((1 : Scalar), (0 : Scalar)) *
         length ((0 : Scalar), (1 : Scalar))) ∧
       dot ((1 : Scalar), (0 : Scalar)) ((0 : Scalar), (1 : Scalar)) /
        (length ((1 : Scalar), (0 : Scalar)) *
         length ((0 : Scalar), (1 : Scalar))) ≤ 1) ∧
     ∀ θ, angle ((1 : Scalar), (0 : Scalar)) ((0 : Scalar), (1 : Scalar)) =
       Except.ok θ → 0 ≤ θ ∧ θ ≤ Real.pi) := by
  have h1 : ((1 : Scalar), (0 : Scalar)) ≠ ((0 : Scalar), (0 : Scalar)) := by
    norm_num [Prod.ext_iff]
  have h2 : ((0 : Scalar), (1 : Scalar)) ≠ ((0 : Scalar), (0 : Scalar)) := by
    norm_num [Prod.ext_iff]
  exact ⟨h1, h2, angle_spec _ _ h1 h2⟩

/-- C2: evaluation of `toPolar` at the failing input `v = (1,0)`. The
second component is the scalar `length(v) = 1`, but the first component is
NOT a scalar: it is the partially-applied `angle` closure produced by
`angle(a)` under the `curryright` convention, which binds `v` as the
SECOND argument — applying it to `(0,1)` yields `angle((0,1), (1,0)) =
π/2`, not the claimed scalar `angle(v, (1,0)) = 0`. -/
theorem toPolar_first_component_closure :
    (toPolar ((1 : Scalar), (0 : Scalar))).2 = 1 ∧
    (toPolar ((1 : Scalar), (0 : Scalar))).1 ((0 : Scalar), (1 : Scalar)) =
      Except.ok (Real.pi / 2) := by
  constructor
  · show length ((1 : Scalar), (0 : Scalar)) = 1
    rw [length]
    norm_num [dot, Real.sqrt_one]
  · show angle ((0 : Scalar), (1 : Scalar)) ((1 : Scalar), (0 : Scalar)) =
      Except.ok (Real.pi / 2)
    have h1 : ((0 : Scalar), (1 : Scalar)) ≠ ((0 : Scalar), (0 : Scalar)) := by
      norm_num [Prod.ext_iff]
    have h2 : ((1 : Scalar), (0 : Scalar)) ≠ ((0 : Scalar), (0 : Scalar)) := by
      norm_num [Prod.ext_iff]
    rw [angle, if_neg h1, if_neg h2]
    have hd : dot ((0 : Scalar), (1 : Scalar)) ((1 : Scalar), (0 : Scalar)) = 0 := by
      norm_num [dot]
    rw [hd, zero_div, Real.arccos_zero]

end V2
